import Mathlib

/-!
Verification development for the SCPI power-supply driver
(`src/scpi.rs` and the poller / session logic of `src/main.rs`).

Modelling conventions:
* Rust `String` / `&str` are modelled as `List Char`; raw byte buffers as
  `List Nat` (each entry < 256 in practice).
* The serial transport is modelled as a queue of read events
  (`ReadEvent`): a successfully read byte, a zero-byte read, a read that
  failed with `TimedOut`, or a read that failed with another I/O error.
  Exhausting the queue models the overall 500 ms deadline elapsing
  (`start_time.elapsed() > timeout` in `read_serial_response`).
* `f32` values are modelled as exact rationals (`ℚ`); the claims under
  study only involve comparisons that are robust to `f32` rounding.
* Display-only formatting (`format!("{:.2}", …)`, the textual SVG path)
  is modelled by the exact value being formatted: `power_reading` keeps
  the rational product, and `generate_svg_path` returns the polyline
  vertex list that the source serializes with one-decimal formatting.
-/

/-- Unicode white-space test used by Rust's `str::trim`
(`char::is_whitespace`), restricted to the `White_Space` code points. -/
def isRustWhitespace (c : Char) : Bool :=
  c.toNat = 0x09 ∨ c.toNat = 0x0A ∨ c.toNat = 0x0B ∨ c.toNat = 0x0C ∨
  c.toNat = 0x0D ∨ c.toNat = 0x20 ∨ c.toNat = 0x85 ∨ c.toNat = 0xA0 ∨
  c.toNat = 0x1680 ∨ (0x2000 ≤ c.toNat ∧ c.toNat ≤ 0x200A) ∨
  c.toNat = 0x2028 ∨ c.toNat = 0x2029 ∨ c.toNat = 0x202F ∨
  c.toNat = 0x205F ∨ c.toNat = 0x3000

/-- Rust `str::trim`: drop white space from both ends. -/
def rustTrim (s : List Char) : List Char :=
  (s.dropWhile isRustWhitespace).reverse.dropWhile isRustWhitespace |>.reverse

/-- UTF-8 encoding of one scalar value (Rust `char`). -/
def utf8EncodeChar (c : Char) : List Nat :=
  let n := c.toNat
  if n < 0x80 then [n]
  else if n < 0x800 then [0xC0 + n / 64, 0x80 + n % 64]
  else if n < 0x10000 then
    [0xE0 + n / 4096, 0x80 + n / 64 % 64, 0x80 + n % 64]
  else
    [0xF0 + n / 262144, 0x80 + n / 4096 % 64, 0x80 + n / 64 % 64,
     0x80 + n % 64]

/-- Rust `str::as_bytes`: UTF-8 encoding of a string. -/
def utf8Encode (s : List Char) : List Nat :=
  s.flatMap utf8EncodeChar

/-- Is `b` a UTF-8 continuation byte (`0x80 ≤ b ≤ 0xBF`)? -/
def isCont (b : Nat) : Bool := 0x80 ≤ b ∧ b ≤ 0xBF

/-- The replacement character U+FFFD emitted by lossy decoding. -/
def replChar : Char := Char.ofNat 0xFFFD

/-- One step of UTF-8 decoding: decode a first scalar from the byte
list, returning the scalar (or `none` for an invalid maximal subpart)
and the remaining bytes.  Mirrors the sequence classification of
`String::from_utf8_lossy`. -/
def utf8DecodeStep : List Nat → Option Char × List Nat
  | [] => (none, [])
  | b :: rest =>
    if b < 0x80 then (some (Char.ofNat b), rest)
    else if 0xC2 ≤ b ∧ b ≤ 0xDF then
      match rest with
      | c1 :: r1 =>
        if isCont c1 then (some (Char.ofNat ((b - 0xC0) * 64 + (c1 - 0x80))), r1)
        else (none, rest)
      | [] => (none, [])
    else if 0xE0 ≤ b ∧ b ≤ 0xEF then
      match rest with
      | c1 :: r1 =>
        let okFirst :=
          (b = 0xE0 ∧ 0xA0 ≤ c1 ∧ c1 ≤ 0xBF) ∨
          (0xE1 ≤ b ∧ b ≤ 0xEC ∧ isCont c1) ∨
          (b = 0xED ∧ 0x80 ≤ c1 ∧ c1 ≤ 0x9F) ∨
          (0xEE ≤ b ∧ b ≤ 0xEF ∧ isCont c1)
        if okFirst then
          match r1 with
          | c2 :: r2 =>
            if isCont c2 then
              (some (Char.ofNat ((b - 0xE0) * 4096 + (c1 - 0x80) * 64 + (c2 - 0x80))), r2)
            else (none, r1)
          | [] => (none, [])
        else (none, rest)
      | [] => (none, [])
    else if 0xF0 ≤ b ∧ b ≤ 0xF4 then
      match rest with
      | c1 :: r1 =>
        let okFirst :=
          (b = 0xF0 ∧ 0x90 ≤ c1 ∧ c1 ≤ 0xBF) ∨
          (0xF1 ≤ b ∧ b ≤ 0xF3 ∧ isCont c1) ∨
          (b = 0xF4 ∧ 0x80 ≤ c1 ∧ c1 ≤ 0x8F)
        if okFirst then
          match r1 with
          | c2 :: r2 =>
            if isCont c2 then
              match r2 with
              | c3 :: r3 =>
                if isCont c3 then
                  (some (Char.ofNat ((b - 0xF0) * 262144 + (c1 - 0x80) * 4096 +
                    (c2 - 0x80) * 64 + (c3 - 0x80))), r3)
                else (none, r2)
              | [] => (none, [])
            else (none, r1)
          | [] => (none, [])
        else (none, rest)
      | [] => (none, [])
    else (none, rest)

/-- Fuel-indexed worker for lossy UTF-8 decoding. -/
def utf8DecodeLossyAux : Nat → List Nat → List Char
  | 0, _ => []
  | _, [] => []
  | fuel + 1, bs =>
    match utf8DecodeStep bs with
    | (some c, r) => c :: utf8DecodeLossyAux fuel r
    | (none, r) => replChar :: utf8DecodeLossyAux fuel r

/-- Rust `String::from_utf8_lossy`: decode a byte list, replacing each
maximal invalid subpart by U+FFFD. -/
def utf8DecodeLossy (bs : List Nat) : List Char :=
  utf8DecodeLossyAux bs.length bs

/-- Rust `str::split(',')` on a character list. -/
def splitComma : List Char → List (List Char)
  | [] => [[]]
  | c :: rest =>
    match splitComma rest with
    | g :: gs => if c = ',' then [] :: g :: gs else (c :: g) :: gs
    | [] => [[c]]

/-- Decimal digit test. -/
def isDigitCh (c : Char) : Bool := '0' ≤ c ∧ c ≤ '9'

/-- Value of a digit string, most significant first. -/
def digitsVal (s : List Char) : Nat :=
  s.foldl (fun a c => a * 10 + (c.toNat - 48)) 0

/-- Model of Rust `str::parse::<f32>` on plain decimal literals
(optional sign, integer part, optional fractional part; scientific
notation and the special values `inf`/`nan` are not used by this
program's replies and are not modelled).  Returns `none` where the Rust
parse returns `Err`. -/
def parseRat (s : List Char) : Option ℚ :=
  let signed : ℚ × List Char :=
    match s with
    | '-' :: t => (-1, t)
    | '+' :: t => (1, t)
    | _ => (1, s)
  let intPart := signed.2.takeWhile isDigitCh
  let rest := signed.2.dropWhile isDigitCh
  match rest with
  | [] => if intPart = [] then none else some (signed.1 * digitsVal intPart)
  | '.' :: frac =>
    let fracPart := frac.takeWhile isDigitCh
    let rest2 := frac.dropWhile isDigitCh
    if rest2 ≠ [] then none
    else if intPart = [] ∧ fracPart = [] then none
    else some (signed.1 *
      ((digitsVal intPart : ℚ) + (digitsVal fracPart : ℚ) / 10 ^ fracPart.length))
  | _ => none

/-- Rust `s.parse().unwrap_or(0.0)`. -/
def parseOr0 (s : List Char) : ℚ := (parseRat s).getD 0

/-- One result of `port.read(&mut byte_buf)` on a one-byte buffer:
`Ok(1)` with the byte, `Ok(0)`, `Err(TimedOut)`, or another `Err`.
A list of these is the transport's pending input; running out of
events models the 500 ms deadline of `read_serial_response` elapsing. -/
inductive ReadEvent where
  | byte (b : Nat)
  | okZero
  | errTimedOut
  | errOther
deriving DecidableEq, Repr

/-- The accumulation loop of `read_serial_response` (src/scpi.rs:37-56):
push each byte, stop at a line feed, skip `Ok(0)` and `TimedOut`, stop
at any other error, stop when the deadline elapses (event list empty).
Returns the accumulated bytes and the events left unconsumed. -/
def read_loop : List ReadEvent → List Nat → List Nat × List ReadEvent
  | [], acc => (acc, [])
  | ReadEvent.byte b :: rest, acc =>
    if b = 10 then (acc ++ [b], rest) else read_loop rest (acc ++ [b])
  | ReadEvent.okZero :: rest, acc => read_loop rest acc
  | ReadEvent.errTimedOut :: rest, acc => read_loop rest acc
  | ReadEvent.errOther :: rest, acc => (acc, rest)

/-- Model of `read_serial_response` (src/scpi.rs:31-60): run the
accumulation loop; if no byte was accumulated return `none`, otherwise
the lossily decoded, trimmed line.  Also returns the unconsumed input
events (bytes left in the OS buffer). -/
def read_serial_response (events : List ReadEvent) :
    Option (List Char) × List ReadEvent :=
  let r := read_loop events []
  (if r.1 = [] then none else some (rustTrim (utf8DecodeLossy r.1)), r.2)

/-- The transport half of a `Box<dyn SerialPort>`: pending input events,
bytes written so far, and whether `write_all` fails. -/
structure Transport where
  pending : List ReadEvent
  written : List Nat
  writeFails : Bool
deriving DecidableEq, Repr

/-- Frame encoding of `send_command` (src/scpi.rs:64):
`format!("{}\r\n", cmd).as_bytes()`. -/
def encode (cmd : List Char) : List Nat :=
  utf8Encode (cmd ++ [Char.ofNat 13, Char.ofNat 10])

/-- Model of `send_command` (src/scpi.rs:63-75): write the CRLF frame
(on write error return `none` with nothing written); if the command
text contains a question mark, read one response line, otherwise
return `none` without reading. -/
def send_command (t : Transport) (cmd : List Char) :
    Option (List Char) × Transport :=
  if t.writeFails then (none, t)
  else
    let t1 : Transport := { t with written := t.written ++ encode cmd }
    if cmd.contains '?' then
      let r := read_serial_response t1.pending
      (r.1, { t1 with pending := r.2 })
    else
      (none, t1)

/-- Input-buffer flush performed once by the connect handler right
after opening the port (src/main.rs:74, `p.clear(ClearBuffer::Input)`):
all pending input events are discarded. -/
def connect_clear_input (t : Transport) : Transport :=
  { t with pending := [] }

/-- Variant of the driver that follows the specification's words
(spec section 4.3 step 1): flush the transport's input buffer before
every send.  This is NOT what `send_command` in src/scpi.rs does; it is
stated only to compare the code against the spec. -/
def send_command_flushing (t : Transport) (cmd : List Char) :
    Option (List Char) × Transport :=
  send_command (connect_clear_input t) cmd

/-- Response sanitization of the poll tick (src/main.rs:315-316):
strip the stray guillemet glyph, trim, split on commas. -/
def parse_fields (raw : List Char) : List (List Char) :=
  splitComma (rustTrim (raw.filter (fun c => c ≠ '«')))

/-- Operating-mode indicator of the poll tick (src/main.rs:336-351):
empty when output is off, `CC` when the current reading is within 5 %
of the active limit and above the 10 mA noise floor, else `CV`. -/
def classify_mode (output_on : Bool) (i_limit_active curr_i : ℚ) : List Char :=
  if ¬output_on then []
  else if |curr_i - i_limit_active| < i_limit_active * (5 / 100) ∧ curr_i > 1 / 100 then
    "CC".data
  else
    "CV".data

/-- Chart-path generation (src/main.rs:252-274): auto-scale by the
buffer maximum (floored at 1, widened by 10 %), map index to x, invert
y.  Returns the polyline vertices that the source writes as an SVG
move-to / line-to command string with one-decimal formatting. -/
def generate_svg_path (buffer : List ℚ) (width height : ℚ) : List (ℚ × ℚ) :=
  if buffer.isEmpty then []
  else
    let max_val := (max (buffer.foldl (fun a b => max a b) 0) 1) * (11 / 10)
    buffer.enum.map (fun p =>
      (((p.1 : ℚ) / ((buffer.length - 1 : Nat) : ℚ)) * width,
       height - p.2 / max_val * height))

/-- The poller's observable state: the two ring buffers (front =
oldest sample), the displayed readings, and the published chart
paths. -/
structure PollState where
  history_v : List ℚ
  history_i : List ℚ
  voltage_reading : List Char
  current_reading : List Char
  power_reading : ℚ
  psu_mode : List Char
  chart_data_v : List (ℚ × ℚ)
  chart_data_i : List (ℚ × ℚ)
deriving DecidableEq, Repr

/-- Initial ring-buffer contents (src/main.rs:279-285): `CHART_WIDTH`
= 100 zero samples pushed into each buffer. -/
def init_history : List ℚ := List.replicate 100 (0 : ℚ)

/-- Section B of the poll tick (src/main.rs:369-389): unconditionally
pop the oldest sample and push the newest on both buffers, then
regenerate and publish both chart paths. -/
def advance_buffers (st : PollState) (curr_v curr_i : ℚ) : PollState :=
  let hv := st.history_v.tail ++ [curr_v]
  let hi := st.history_i.tail ++ [curr_i]
  { st with
    history_v := hv,
    history_i := hi,
    chart_data_v := generate_svg_path hv 750 120,
    chart_data_i := generate_svg_path hi 750 120 }

/-- Reply acceptance of the poll tick (src/main.rs:314-321): a reply
is accepted when it is present and, after sanitization, splits into at
least two comma-separated fields; the trimmed voltage and current
fields are returned.  Here `raw = none` covers both a missing port and
a driver exchange that yielded nothing. -/
def tick_parse : Option (List Char) → Option (List Char × List Char)
  | none => none
  | some raw_res =>
    match parse_fields raw_res with
    | p0 :: p1 :: _ => some (rustTrim p0, rustTrim p1)
    | _ => none

/-- The poll tick's processing of the reply `raw` returned by the
driver, continued: on an accepted reply update the displayed readings,
power and mode and advance the buffers with the parsed values;
otherwise advance the buffers with the last-known values and touch
nothing else (src/main.rs:312-378). -/
def poll_tick_core (i_limit_active : ℚ) (output_on : Bool)
    (raw : Option (List Char)) (st : PollState) : PollState :=
  match tick_parse raw with
  | some vi =>
    let curr_v := parseOr0 vi.1
    let curr_i := parseOr0 vi.2
    advance_buffers { st with
      voltage_reading := vi.1,
      current_reading := vi.2,
      power_reading := curr_v * curr_i,
      psu_mode := classify_mode output_on i_limit_active curr_i } curr_v curr_i
  | none =>
    advance_buffers st (st.history_v.getLast?.getD 0) (st.history_i.getLast?.getD 0)

/-- One poll-timer tick (src/main.rs:302-390): when a port is held,
issue the composite `MEAS:ALL?` query through the driver and process
the reply; when no port is held, process a missing reply.  Returns the
new poller state and the port after the exchange. -/
def poll_tick (i_limit_active : ℚ) (output_on : Bool)
    (port : Option Transport) (st : PollState) :
    PollState × Option Transport :=
  match port with
  | none => (poll_tick_core i_limit_active output_on none st, none)
  | some t =>
    let r := send_command t ("MEAS:ALL?".data)
    (poll_tick_core i_limit_active output_on r.1 st, some r.2)

/-- The application-level state relevant to connect / disconnect and
the waveform loop: the session flag, the owned transport, whether each
of the two repeating timers is running, and the displayed fields. -/
structure AppState where
  status_connected : Bool
  port : Option Transport
  monitor_armed : Bool
  loop_armed : Bool
  is_looping : Bool
  is_output_on : Bool
  voltage_reading : List Char
  current_reading : List Char
  power_reading : List Char
  psu_mode : List Char
deriving DecidableEq, Repr

/-- The disconnect branch of `on_toggle_connection` (src/main.rs:46-69):
stop the monitor timer, send the unlock command best-effort on the held
port, drop the port, reset status and displayed fields, clear the
`is_looping` and `is_output_on` flags.  The loop timer itself is not
touched.  Returns the new state and the dropped transport (after the
unlock write), so the unlock frame remains observable. -/
def on_disconnect (st : AppState) : AppState × Option Transport :=
  let dropped := st.port.map (fun t => (send_command t ("SYST:COMM:RLST LOC".data)).2)
  ({ st with
      monitor_armed := false,
      port := none,
      status_connected := false,
      is_looping := false,
      is_output_on := false,
      voltage_reading := "---".data,
      current_reading := "---".data,
      power_reading := "0.00".data,
      psu_mode := [] }, dropped)

/-- The waveform-loop toggle (src/main.rs:220-241): when looping, stop
the loop timer and clear the flag; otherwise set the flag and start the
timer (the tick body, which alternates set-voltage commands, is not
needed by the claims under study). -/
def on_toggle_loop (st : AppState) : AppState :=
  if st.is_looping then { st with loop_armed := false, is_looping := false }
  else { st with is_looping := true, loop_armed := true }

/-- Accumulation lemma: as long as no line feed appears, the read loop
just appends the incoming bytes to the accumulator. -/
theorem read_loop_append_bytes (bs : List Nat) (hno : 10 ∉ bs)
    (acc : List Nat) (evs : List ReadEvent) :
    read_loop (bs.map ReadEvent.byte ++ evs) acc = read_loop evs (acc ++ bs) := by
  induction bs generalizing acc with
  | nil => simp
  | cons b rest ih =>
    have hb : b ≠ 10 := fun h => hno (h ▸ List.mem_cons_self b rest)
    have hrest : 10 ∉ rest := fun h => hno (List.mem_cons_of_mem b h)
    simp only [List.map_cons, List.cons_append, read_loop, if_neg hb, List.append_eq]
    rw [ih hrest]
    simp [List.append_assoc]

/-- Claim C1: for every command without a question mark, `send_command`
writes the CRLF-terminated frame and returns `none` without consuming
any input; for every command with a question mark, after a successful
write it returns the one response line read from the pending input,
and `none` when that read times out with no data. -/
theorem send_command_query_discipline (t : Transport) (cmd : List Char)
    (hw : t.writeFails = false) :
    (('?' ∉ cmd) →
      send_command t cmd = (none, { t with written := t.written ++ encode cmd })) ∧
    (('?' ∈ cmd) →
      (send_command t cmd).1 = (read_serial_response t.pending).1 ∧
      (send_command t cmd).2.written = t.written ++ encode cmd ∧
      (t.pending = [] → (send_command t cmd).1 = none)) := by
  constructor
  · intro h
    simp [send_command, hw, List.contains, List.elem_eq_mem, h]
  · intro h
    refine ⟨?_, ?_, ?_⟩
    · simp [send_command, hw, List.contains, List.elem_eq_mem, h]
    · simp [send_command, hw, List.contains, List.elem_eq_mem, h]
    · intro hp
      simp [send_command, hw, List.contains, List.elem_eq_mem, h, hp, read_serial_response, read_loop]

theorem send_command_query_discipline_witness :
    ((Transport.mk [ReadEvent.byte 79, ReadEvent.byte 75, ReadEvent.byte 10]
        [] false).writeFails = false) ∧
    ((send_command ⟨[ReadEvent.byte 79, ReadEvent.byte 75, ReadEvent.byte 10],
        [], false⟩ ("*IDN?".data)).1 = some ("OK".data)) := by
  have h := (send_command_query_discipline
    ⟨[ReadEvent.byte 79, ReadEvent.byte 75, ReadEvent.byte 10], [], false⟩
    ("*IDN?".data) rfl).2 (by decide)
  refine ⟨rfl, ?_⟩
  rw [h.1]
  decide

/-- Claim C3: the line decoder terminates only on a line feed (a
carriage return is accumulated like any other byte); a deadline with
zero bytes accumulated yields `none`, and a deadline with bytes but no
line feed yields the accumulated bytes lossily decoded and trimmed. -/
theorem read_line_terminator_and_timeout (bs : List Nat) (hno : 10 ∉ bs) :
    ((read_serial_response []).1 = none) ∧
    (bs ≠ [] → (read_serial_response (bs.map ReadEvent.byte)).1 =
      some (rustTrim (utf8DecodeLossy bs))) ∧
    (∀ post : List ReadEvent,
      (read_serial_response (bs.map ReadEvent.byte ++ ReadEvent.byte 10 :: post)).1 =
        some (rustTrim (utf8DecodeLossy (bs ++ [10])))) := by
  refine ⟨rfl, ?_, ?_⟩
  · intro hne
    have h := read_loop_append_bytes bs hno [] []
    simp only [List.append_nil] at h
    simp [read_serial_response, h, read_loop, hne]
  · intro post
    have h := read_loop_append_bytes bs hno [] (ReadEvent.byte 10 :: post)
    simp [read_serial_response, h, read_loop]

theorem read_line_terminator_and_timeout_witness :
    (10 ∉ [(53 : Nat), 13]) ∧
    ((read_serial_response (([53, 13] : List Nat).map ReadEvent.byte)).1 =
      some ("5".data)) := by
  have h := (read_line_terminator_and_timeout [53, 13] (by decide)).2.1 (by decide)
  refine ⟨by decide, ?_⟩
  rw [h]
  decide

/-- Claim C10: the line decoder never propagates a read error: a
non-timeout error with bytes already accumulated yields the decoded
trimmed partial line and with no bytes yields `none`, while a
`TimedOut` error from an individual read is skipped and reading
continues. -/
theorem read_error_handling (pre : List Nat) (hno : 10 ∉ pre)
    (rest : List ReadEvent) :
    ((read_serial_response (pre.map ReadEvent.byte ++ ReadEvent.errOther :: rest)).1 =
      if pre = [] then none else some (rustTrim (utf8DecodeLossy pre))) ∧
    ((read_serial_response (pre.map ReadEvent.byte ++ ReadEvent.errTimedOut :: rest)).1 =
      (read_serial_response (pre.map ReadEvent.byte ++ rest)).1) := by
  constructor
  · have h := read_loop_append_bytes pre hno [] (ReadEvent.errOther :: rest)
    simp [read_serial_response, h, read_loop]
  · have h1 := read_loop_append_bytes pre hno [] (ReadEvent.errTimedOut :: rest)
    have h2 := read_loop_append_bytes pre hno [] rest
    simp [read_serial_response, h1, h2, read_loop]

theorem read_error_handling_witness :
    (10 ∉ [(65 : Nat)]) ∧
    ((read_serial_response (([65] : List Nat).map ReadEvent.byte ++
        ReadEvent.errOther :: [])).1 = some ("A".data)) := by
  have h := (read_error_handling [65] (by decide) []).1
  refine ⟨by decide, ?_⟩
  rw [h]
  decide

/-- Claim C2 counterexample: `send_command` performs no input flush, so
with stale bytes pending a query returns the stale line, while the
spec-mandated flush-before-send variant would discard it and return
`none`.  The stale pending input is the line `STALE`. -/
theorem no_flush_before_send_counterexample :
    ((send_command ⟨[ReadEvent.byte 83, ReadEvent.byte 84, ReadEvent.byte 65,
        ReadEvent.byte 76, ReadEvent.byte 69, ReadEvent.byte 10], [], false⟩
        ("*IDN?".data)).1 = some ("STALE".data)) ∧
    ((send_command_flushing ⟨[ReadEvent.byte 83, ReadEvent.byte 84,
        ReadEvent.byte 65, ReadEvent.byte 76, ReadEvent.byte 69,
        ReadEvent.byte 10], [], false⟩ ("*IDN?".data)).1 = none) := by
  decide

/-- Claim C2 (amended): the input buffer is flushed only once, by the
connect handler right after opening the port; `send_command` itself
performs no flush, and a query reads from whatever input is already
pending, so only a transport flushed at connect time and not written
to since is guaranteed stale-free. -/
theorem flush_only_at_connect (t : Transport) (cmd : List Char)
    (hw : t.writeFails = false) (hq : '?' ∈ cmd) :
    ((send_command t cmd).1 = (read_serial_response t.pending).1) ∧
    ((connect_clear_input t).pending = []) ∧
    ((send_command (connect_clear_input t) cmd).1 = none) := by
  refine ⟨?_, rfl, ?_⟩
  · simp [send_command, hw, List.contains, List.elem_eq_mem, hq]
  · simp [send_command, connect_clear_input, hw, List.contains, List.elem_eq_mem, hq,
      read_serial_response, read_loop]

theorem flush_only_at_connect_witness :
    ((Transport.mk [ReadEvent.byte 83, ReadEvent.byte 10] [] false).writeFails
      = false) ∧
    ((send_command (connect_clear_input
        ⟨[ReadEvent.byte 83, ReadEvent.byte 10], [], false⟩) ("*IDN?".data)).1
      = none) := by
  have h := flush_only_at_connect ⟨[ReadEvent.byte 83, ReadEvent.byte 10], [], false⟩
    ("*IDN?".data) rfl (by decide)
  exact ⟨rfl, h.2.2⟩

/-- Claim C4 counterexample: feeding the bytes of the encoded command
frame, concatenated with the reply bytes, into the line decoder stops
at the frame's own line feed: the decoder returns the echoed command
text, not the reply value. -/
theorem roundtrip_as_stated_fails :
    ((read_serial_response ((encode ("MEAS:ALL?".data) ++
        utf8Encode ("5.0000,0.2500\n".data)).map ReadEvent.byte)).1 =
      some ("MEAS:ALL?".data)) ∧
    ("MEAS:ALL?".data ≠ "5.0000,0.2500".data) := by
  decide

/-- Claim C4 (amended): the codec round-trip holds with the encoded
command written to the transport and only the device's literal reply
bytes on the inbound side: `send_command` on `MEAS:ALL?` writes the
frame produced by `encode` and decoding the reply bytes yields
`5.0000,0.2500`. -/
theorem roundtrip_codec :
    send_command ⟨(utf8Encode ("5.0000,0.2500\n".data)).map ReadEvent.byte,
        [], false⟩ ("MEAS:ALL?".data) =
      (some ("5.0000,0.2500".data), ⟨[], encode ("MEAS:ALL?".data), false⟩) := by
  decide

/-- Shape lemma: every tick, on success or failure, pops the oldest
sample and pushes one newest sample on each buffer. -/
theorem poll_tick_core_advances (il : ℚ) (out : Bool)
    (raw : Option (List Char)) (st : PollState) :
    ∃ v i, (poll_tick_core il out raw st).history_v = st.history_v.tail ++ [v] ∧
           (poll_tick_core il out raw st).history_i = st.history_i.tail ++ [i] := by
  cases h : tick_parse raw with
  | none =>
    refine ⟨st.history_v.getLast?.getD 0, st.history_i.getLast?.getD 0, ?_, ?_⟩ <;>
      simp [poll_tick_core, h, advance_buffers]
  | some vi =>
    refine ⟨parseOr0 vi.1, parseOr0 vi.2, ?_, ?_⟩ <;>
      simp [poll_tick_core, h, advance_buffers]

/-- Claim C5: under the configured capacity 100 (the initial buffers
have exactly that length), every poll tick, successful or failed,
keeps both ring buffers at length 100, keeps them equal in length, and
advances both together: one oldest sample popped, one newest pushed. -/
theorem ring_buffer_invariant (il : ℚ) (out : Bool) (port : Option Transport)
    (st : PollState) (hv : st.history_v.length = 100)
    (hi : st.history_i.length = 100) :
    init_history.length = 100 ∧
    (poll_tick il out port st).1.history_v.length = 100 ∧
    (poll_tick il out port st).1.history_i.length = 100 ∧
    ∃ v i, (poll_tick il out port st).1.history_v = st.history_v.tail ++ [v] ∧
           (poll_tick il out port st).1.history_i = st.history_i.tail ++ [i] := by
  have hshape : ∃ v i,
      (poll_tick il out port st).1.history_v = st.history_v.tail ++ [v] ∧
      (poll_tick il out port st).1.history_i = st.history_i.tail ++ [i] := by
    cases port with
    | none => simpa [poll_tick] using poll_tick_core_advances il out none st
    | some t =>
      simpa [poll_tick] using
        poll_tick_core_advances il out (send_command t ("MEAS:ALL?".data)).1 st
  obtain ⟨v, i, h1, h2⟩ := hshape
  refine ⟨by simp [init_history], ?_, ?_, ⟨v, i, h1, h2⟩⟩
  · rw [h1]; simp [hv]
  · rw [h2]; simp [hi]

theorem ring_buffer_invariant_witness :
    ((PollState.mk init_history init_history [] [] 0 [] [] []).history_v.length
      = 100) ∧
    ((poll_tick 1 false none
        ⟨init_history, init_history, [], [], 0, [], [], []⟩).1.history_v.length
      = 100) ∧
    ((poll_tick 1 false none
        ⟨init_history, init_history, [], [], 0, [], [], []⟩).1.history_i.length
      = 100) := by
  have h := ring_buffer_invariant 1 false none
    ⟨init_history, init_history, [], [], 0, [], [], []⟩ (by decide) (by decide)
  exact ⟨by decide, h.2.1, h.2.2.1⟩

/-- Rejection lemma: a missing reply, or a reply with fewer than two
fields, is not accepted by the tick. -/
theorem tick_parse_short (raw : Option (List Char))
    (h : raw = none ∨ ∃ s, raw = some s ∧ (parse_fields s).length < 2) :
    tick_parse raw = none := by
  rcases h with h | ⟨s, rfl, hlen⟩
  · rw [h]; rfl
  · cases hps : parse_fields s with
    | nil => simp [tick_parse, hps]
    | cons p0 tl =>
      cases tl with
      | nil => simp [tick_parse, hps]
      | cons p1 tl2 =>
        exfalso
        rw [hps] at hlen
        simp at hlen
        omega

theorem parseOr0_five : parseOr0 (['5', '.', '0']) = 5 := by
  simp +decide [parseOr0, parseRat, digitsVal, isDigitCh]

theorem parseOr0_one : parseOr0 (['1', '.', '0']) = 1 := by
  simp +decide [parseOr0, parseRat, digitsVal, isDigitCh]

/-- Claim C6: a failed tick (no reply, or a reply with fewer than two
comma-separated fields) immediately after a successful tick that
reported `5.0,1.0` leaves every displayed field unchanged and appends
the last-known pair `(5, 1)` to the ring buffers again. -/
theorem failed_tick_replicates_last (il1 il2 : ℚ) (out1 out2 : Bool)
    (st0 : PollState) (raw2 : Option (List Char))
    (hfail : raw2 = none ∨ ∃ s, raw2 = some s ∧ (parse_fields s).length < 2) :
    ((poll_tick_core il2 out2 raw2
        (poll_tick_core il1 out1 (some ("5.0,1.0".data)) st0)).voltage_reading =
      (poll_tick_core il1 out1 (some ("5.0,1.0".data)) st0).voltage_reading) ∧
    ((poll_tick_core il2 out2 raw2
        (poll_tick_core il1 out1 (some ("5.0,1.0".data)) st0)).current_reading =
      (poll_tick_core il1 out1 (some ("5.0,1.0".data)) st0).current_reading) ∧
    ((poll_tick_core il2 out2 raw2
        (poll_tick_core il1 out1 (some ("5.0,1.0".data)) st0)).power_reading =
      (poll_tick_core il1 out1 (some ("5.0,1.0".data)) st0).power_reading) ∧
    ((poll_tick_core il2 out2 raw2
        (poll_tick_core il1 out1 (some ("5.0,1.0".data)) st0)).psu_mode =
      (poll_tick_core il1 out1 (some ("5.0,1.0".data)) st0).psu_mode) ∧
    ((poll_tick_core il2 out2 raw2
        (poll_tick_core il1 out1 (some ("5.0,1.0".data)) st0)).history_v =
      (poll_tick_core il1 out1 (some ("5.0,1.0".data)) st0).history_v.tail ++
        [(5 : ℚ)]) ∧
    ((poll_tick_core il2 out2 raw2
        (poll_tick_core il1 out1 (some ("5.0,1.0".data)) st0)).history_i =
      (poll_tick_core il1 out1 (some ("5.0,1.0".data)) st0).history_i.tail ++
        [(1 : ℚ)]) := by
  have hp : tick_parse (some ("5.0,1.0".data)) =
      some ("5.0".data, "1.0".data) := by decide
  have hf := tick_parse_short raw2 hfail
  refine ⟨?_, ?_, ?_, ?_, ?_, ?_⟩ <;>
    simp [poll_tick_core, hp, hf, advance_buffers, parseOr0_five, parseOr0_one,
      List.getLast?_concat]

theorem failed_tick_replicates_last_witness :
    ((none : Option (List Char)) = none ∨
      ∃ s, (none : Option (List Char)) = some s ∧ (parse_fields s).length < 2) ∧
    ((poll_tick_core 1 true none (poll_tick_core 1 true (some ("5.0,1.0".data))
        ⟨init_history, init_history, [], [], 0, [], [], []⟩)).history_v =
      (poll_tick_core 1 true (some ("5.0,1.0".data))
        ⟨init_history, init_history, [], [], 0, [], [], []⟩).history_v.tail ++
        [(5 : ℚ)]) := by
  have h := failed_tick_replicates_last 1 1 true true
    ⟨init_history, init_history, [], [], 0, [], [], []⟩ none (Or.inl rfl)
  exact ⟨Or.inl rfl, h.2.2.2.2.1⟩

/-- Concrete poller state for the disconnected-tick counterexample:
full 100-sample buffers whose most recent sample is 5. -/
def c7_state : PollState :=
  ⟨List.replicate 99 0 ++ [5], List.replicate 99 0 ++ [5],
   "5.0".data, "1.0".data, 5, "CV".data, [], []⟩

/-- Claim C7 counterexample: a poll tick with no transport held is not
a no-op: it advances the ring buffer, changing its contents. -/
theorem disconnected_tick_not_noop :
    (poll_tick 1 true none c7_state).1.history_v ≠ c7_state.history_v := by
  decide

/-- Claim C7 (amended): a poll tick while not connected issues no
command and leaves the displayed readings, power and mode unchanged,
but it still advances both ring buffers by replicating the last-known
values and recomputes and republishes both chart paths from the
shifted buffers. -/
theorem disconnected_tick_behavior (il : ℚ) (out : Bool) (st : PollState) :
    ((poll_tick il out none st).2 = none) ∧
    ((poll_tick il out none st).1.voltage_reading = st.voltage_reading) ∧
    ((poll_tick il out none st).1.current_reading = st.current_reading) ∧
    ((poll_tick il out none st).1.power_reading = st.power_reading) ∧
    ((poll_tick il out none st).1.psu_mode = st.psu_mode) ∧
    ((poll_tick il out none st).1.history_v =
      st.history_v.tail ++ [st.history_v.getLast?.getD 0]) ∧
    ((poll_tick il out none st).1.history_i =
      st.history_i.tail ++ [st.history_i.getLast?.getD 0]) ∧
    ((poll_tick il out none st).1.chart_data_v =
      generate_svg_path (st.history_v.tail ++ [st.history_v.getLast?.getD 0])
        750 120) ∧
    ((poll_tick il out none st).1.chart_data_i =
      generate_svg_path (st.history_i.tail ++ [st.history_i.getLast?.getD 0])
        750 120) := by
  refine ⟨rfl, ?_, ?_, ?_, ?_, ?_, ?_, ?_, ?_⟩ <;>
    simp [poll_tick, poll_tick_core, tick_parse, advance_buffers]

/-- Claim C8: mode classification on a successful tick.  When output
is reported disabled the indicator is empty; when it is enabled the
mode is constant-current exactly when the current reading is within
5 % of the active limit and above the 10 mA noise floor, otherwise
constant-voltage; pinned at the spec's concrete points: limit 1.000
with reading 0.960 gives CC, reading 0.500 gives CV, reading 0.005
gives CV even when the limit is tiny (0.005). -/
theorem mode_classification (out : Bool) (il curr : ℚ) :
    (classify_mode false il curr = []) ∧
    (out = true → |curr - il| < il * (5 / 100) → curr > 1 / 100 →
      classify_mode out il curr = "CC".data) ∧
    (out = true → ¬(|curr - il| < il * (5 / 100) ∧ curr > 1 / 100) →
      classify_mode out il curr = "CV".data) ∧
    (classify_mode true 1 (96 / 100) = "CC".data) ∧
    (classify_mode true 1 (1 / 2) = "CV".data) ∧
    (classify_mode true 1 (5 / 1000) = "CV".data) ∧
    (classify_mode true (5 / 1000) (5 / 1000) = "CV".data) := by
  have hon : ∀ il curr : ℚ, classify_mode true il curr =
      if |curr - il| < il * (5 / 100) ∧ curr > 1 / 100 then "CC".data
      else "CV".data := by
    intro il curr
    simp [classify_mode]
  refine ⟨by simp [classify_mode], ?_, ?_, ?_, ?_, ?_, ?_⟩
  · intro h1 h2 h3
    subst h1
    rw [hon, if_pos ⟨h2, h3⟩]
  · intro h1 h2
    subst h1
    rw [hon, if_neg h2]
  all_goals rw [hon] ; simp only [abs_sub_lt_iff] ; norm_num

theorem mode_classification_witness :
    ((true : Bool) = true) ∧
    (classify_mode true 1 (96 / 100) = "CC".data) := by
  have h := (mode_classification true 1 (96 / 100)).2.1 rfl
    (by rw [abs_sub_lt_iff]; norm_num) (by norm_num)
  exact ⟨rfl, h⟩

/-- Concrete connected application state for the disconnect
counterexample: both timers running, loop flag set, a transport held. -/
def c9_state : AppState :=
  ⟨true, some ⟨[], [], false⟩, true, true, true, true,
   "5.0".data, "1.0".data, "5.00".data, "CV".data⟩

/-- Claim C9 counterexample: disconnecting from a state in which the
waveform loop is running leaves the loop timer armed: the disconnect
handler resets the `is_looping` flag but never stops the loop timer,
so the Waveform Loop task is not stopped. -/
theorem disconnect_leaves_loop_armed :
    ((on_disconnect c9_state).1.loop_armed = true) ∧
    ((on_disconnect c9_state).1.is_looping = false) := by
  decide

/-- Claim C9 (amended): every disconnect stops the poller timer, sends
the unlock command best-effort on the held transport, destroys the
transport handle, resets the displayed readings to sentinel values,
clears the looping and output flags, and returns the session to
Disconnected; however it does not stop the Waveform Loop timer, whose
armed state is left unchanged, and which only the loop toggle handler
stops. -/
theorem disconnect_behavior (st : AppState) (t : Transport)
    (hp : st.port = some t) (hw : t.writeFails = false) :
    ((on_disconnect st).1.monitor_armed = false) ∧
    ((on_disconnect st).1.port = none) ∧
    ((on_disconnect st).1.status_connected = false) ∧
    ((on_disconnect st).1.is_looping = false) ∧
    ((on_disconnect st).1.is_output_on = false) ∧
    ((on_disconnect st).1.voltage_reading = "---".data) ∧
    ((on_disconnect st).1.current_reading = "---".data) ∧
    ((on_disconnect st).1.power_reading = "0.00".data) ∧
    ((on_disconnect st).1.psu_mode = []) ∧
    ((on_disconnect st).2 =
      some { t with
             written := t.written ++ encode ("SYST:COMM:RLST LOC".data) }) ∧
    ((on_disconnect st).1.loop_armed = st.loop_armed) ∧
    (st.is_looping = true → (on_toggle_loop st).loop_armed = false) := by
  refine ⟨rfl, rfl, rfl, rfl, rfl, rfl, rfl, rfl, rfl, ?_, rfl, ?_⟩
  · simp [on_disconnect, hp, send_command, hw]
  · intro h
    simp [on_toggle_loop, h]

theorem disconnect_behavior_witness :
    (c9_state.port = some ⟨[], [], false⟩) ∧
    ((on_disconnect c9_state).1.monitor_armed = false) ∧
    ((on_disconnect c9_state).1.port = none) := by
  have h := disconnect_behavior c9_state ⟨[], [], false⟩ rfl rfl
  exact ⟨rfl, h.1, h.2.1⟩
